import Mathlib

/-!
Verification of the JIT-compilation tutorial notebook
(`docs/jax-101/02-jitting.ipynb`).

The notebook's own Python functions (`log2`, `log2_with_print`,
`log2_if_rank_2`, `f`, `g`, `loop_body`, `g_inner_jitted`,
`unjitted_loop_body`, `g_inner_jitted_poorly`) are embedded directly from
the source cells.  The tracing / caching machinery of the framework
(`jax.jit`, `jax.make_jaxpr`, `static_argnums`, the `ShapedArray` tracing
level and `ConcretizationTypeError`) lives outside the `docs/` tree, so it
is modelled from the specification's description, as marked in the doc
comments of the corresponding definitions.
-/

namespace Jitting

/-! ## Jaxpr tracing model -/

/-- Framework primitives appearing in the notebook's jaxprs: `log` and
`div` (from `jnp.log` and `/`).  There is deliberately no constructor for
a Python side effect such as a list append or a `print`: a jaxpr records
only framework operations. -/
inductive JaxPrim where
  | plog : JaxPrim
  | pdiv : JaxPrim
deriving DecidableEq, Repr

/-- An atom of a jaxpr equation: a variable or a rational literal
(standing for the notebook's float literals such as `2.0`). -/
inductive Atom where
  | var : Nat → Atom
  | lit : ℚ → Atom
deriving DecidableEq, Repr

/-- One jaxpr equation `outVar = prim args`. -/
structure Eqn where
  outVar : Nat
  prim : JaxPrim
  args : List Atom
deriving DecidableEq, Repr

/-- Modelled from the spec: the state accumulated while tracing —
"executing a function once with placeholder values to record the sequence
of operations for later compilation".  `eqns` are the recorded framework
operations; `appended` and `printedVals` record the Python side effects
(appends to `global_list`, `print` calls) that happen at trace time but are
not part of the jaxpr. -/
structure TrSt where
  eqns : List Eqn
  next : Nat
  appended : List Atom
  printedVals : List Atom
deriving DecidableEq, Repr

/-- Initial trace state: the argument is the placeholder `var 0`, fresh
variables start at 1, and no side effect has happened yet. -/
def initTrSt : TrSt := ⟨[], 1, [], []⟩

/-- Record one framework operation on the trace, returning the fresh
output variable. -/
def emit (p : JaxPrim) (args : List Atom) (s : TrSt) : Atom × TrSt :=
  (Atom.var s.next,
   { s with eqns := s.eqns ++ [⟨s.next, p, args⟩], next := s.next + 1 })

/-- The notebook's `log2` as executed during tracing:
`global_list.append(x); ln_x = jnp.log(x); ln_2 = jnp.log(2.0);
return ln_x / ln_2`. -/
def log2T (x : Atom) (s : TrSt) : Atom × TrSt :=
  let s0 := { s with appended := s.appended ++ [x] }
  let (ln_x, s1) := emit JaxPrim.plog [x] s0
  let (ln_2, s2) := emit JaxPrim.plog [Atom.lit 2] s1
  emit JaxPrim.pdiv [ln_x, ln_2] s2

/-- The notebook's `log2_with_print` as executed during tracing:
`print("printed x:", x)` happens at trace time (the tracer object is
printed), then the same three framework operations are recorded. -/
def log2WithPrintT (x : Atom) (s : TrSt) : Atom × TrSt :=
  let s0 := { s with printedVals := s.printedVals ++ [x] }
  let (ln_x, s1) := emit JaxPrim.plog [x] s0
  let (ln_2, s2) := emit JaxPrim.plog [Atom.lit 2] s1
  emit JaxPrim.pdiv [ln_x, ln_2] s2

/-- The notebook's `log2_if_rank_2` as executed during tracing of an input
whose shape is `shape`: `if x.ndim == 2:` is ordinary Python control flow
resolved at trace time (`ndim` is the length of the shape), so only the
branch actually taken is recorded. -/
def log2IfRank2T (shape : List Nat) (x : Atom) (s : TrSt) : Atom × TrSt :=
  if shape.length = 2 then
    let (ln_x, s1) := emit JaxPrim.plog [x] s
    let (ln_2, s2) := emit JaxPrim.plog [Atom.lit 2] s1
    emit JaxPrim.pdiv [ln_x, ln_2] s2
  else
    (x, s)

/-- Modelled from the spec: `jax.make_jaxpr` — run the function once on the
placeholder argument `var 0` starting from the fresh trace state, and
return the recorded equations, the output atom, and the final trace
state. -/
def makeJaxpr (f : Atom → TrSt → Atom × TrSt) : List Eqn × Atom × TrSt :=
  let (out, s) := f (Atom.var 0) initTrSt
  (s.eqns, out, s)

/-! ## Integer semantics of the notebook's Python functions -/

/-- The `while i < n: i += 1` loop of the notebook's `g`, run on concrete
Python integers starting from counter value `i`.  Total by well-founded
recursion on `(n - i).toNat`, which is the termination argument for the
source loop. -/
def gLoop (n i : ℤ) : ℤ :=
  if i < n then gLoop n (i + 1) else i
termination_by (n - i).toNat
decreasing_by
  omega

/-- The notebook's `g(x, n)`: `i = 0; while i < n: i += 1; return x + i`. -/
def g (x n : ℤ) : ℤ := x + gLoop n 0

/-- Number of iterations the `while` loop of `g` performs when started at
counter value `i`. -/
def gLoopCount (n i : ℤ) : ℕ :=
  if i < n then gLoopCount n (i + 1) + 1 else 0
termination_by (n - i).toNat
decreasing_by
  omega

/-- Modelled from the spec: applying a `jax.jit`-compiled function returns
the same value as the original Python function (compilation changes cost
and caching, not results). -/
def jitApply (f : ℤ → ℤ) : ℤ → ℤ := f

/-- The notebook's `loop_body` (defined under `@jax.jit`):
`return prev_i + 1`. -/
def loop_body (prev_i : ℤ) : ℤ := prev_i + 1

/-- The loop of `g_inner_jitted`: `while i < n: i = loop_body(i)`, where
`loop_body` was jitted once, outside the loop. -/
def gInnerLoop (n i : ℤ) : ℤ :=
  if i < n then gInnerLoop n (jitApply loop_body i) else i
termination_by (n - i).toNat
decreasing_by
  simp only [jitApply, loop_body]
  omega

/-- The notebook's `g_inner_jitted(x, n)`. -/
def g_inner_jitted (x n : ℤ) : ℤ := x + gInnerLoop n 0

/-- The notebook's `unjitted_loop_body`: `return prev_i + 1`. -/
def unjitted_loop_body (prev_i : ℤ) : ℤ := prev_i + 1

/-- The loop of `g_inner_jitted_poorly`:
`while i < n: i = jax.jit(unjitted_loop_body)(i)` — `jax.jit` is applied
afresh inside the loop at every iteration. -/
def gInnerLoopPoorly (n i : ℤ) : ℤ :=
  if i < n then gInnerLoopPoorly n (jitApply unjitted_loop_body i) else i
termination_by (n - i).toNat
decreasing_by
  simp only [jitApply, unjitted_loop_body]
  omega

/-- The notebook's `g_inner_jitted_poorly(x, n)`. -/
def g_inner_jitted_poorly (x n : ℤ) : ℤ := x + gInnerLoopPoorly n 0

/-! ## Tracing at the `ShapedArray` abstraction level -/

/-- The error raised by the framework when Python control flow is
conditioned on a traced value. -/
inductive JaxError where
  | concretizationTypeError : JaxError
deriving DecidableEq, Repr

/-- Modelled from the spec: a value during `jax.jit` tracing.  The default
tracing level is `ShapedArray`: a tracer carries a concrete shape but no
concrete value; ordinary Python values stay concrete. -/
inductive TVal where
  | concrete : ℤ → TVal
  | tracer : List Nat → TVal
deriving DecidableEq, Repr

/-- Shape of the result of a binary operation (all examples are scalars;
the tracer operand's shape wins). -/
def tBinShape : TVal → TVal → List Nat
  | TVal.tracer s, _ => s
  | _, TVal.tracer s => s
  | _, _ => []

/-- Modelled from the spec: `x > y` under tracing.  On concrete values it
is the Python comparison (booleans encoded 1/0); if either operand is a
tracer, the result is a traced boolean with no concrete value. -/
def tGt (a b : TVal) : TVal :=
  match a, b with
  | TVal.concrete x, TVal.concrete y => TVal.concrete (if y < x then 1 else 0)
  | _, _ => TVal.tracer (tBinShape a b)

/-- Modelled from the spec: `x < y` under tracing. -/
def tLt (a b : TVal) : TVal :=
  match a, b with
  | TVal.concrete x, TVal.concrete y => TVal.concrete (if x < y then 1 else 0)
  | _, _ => TVal.tracer (tBinShape a b)

/-- Modelled from the spec: addition under tracing. -/
def tAdd (a b : TVal) : TVal :=
  match a, b with
  | TVal.concrete x, TVal.concrete y => TVal.concrete (x + y)
  | _, _ => TVal.tracer (tBinShape a b)

/-- Modelled from the spec: multiplication under tracing. -/
def tMul (a b : TVal) : TVal :=
  match a, b with
  | TVal.concrete x, TVal.concrete y => TVal.concrete (x * y)
  | _, _ => TVal.tracer (tBinShape a b)

/-- Modelled from the spec: Python's `bool()` coercion, as used by `if`
and `while`.  On a concrete value it succeeds; on a tracer, which has no
concrete value, the framework raises `ConcretizationTypeError` and tracing
fails. -/
def pyBool : TVal → Except JaxError Bool
  | TVal.concrete v => Except.ok (v ≠ 0)
  | TVal.tracer _ => Except.error JaxError.concretizationTypeError

/-- The notebook's `f` as executed during tracing:
`if x > 0: return x else: return 2 * x`. -/
def fTraced (x : TVal) : Except JaxError TVal := do
  let b ← pyBool (tGt x (TVal.concrete 0))
  if b then pure x else pure (tMul (TVal.concrete 2) x)

/-- Modelled from the spec: `jax.jit(f)` applied to a scalar argument —
the argument is replaced by a shape-only scalar tracer, and `f` is run
once on it. -/
def fJit (_x : ℤ) : Except JaxError TVal :=
  fTraced (TVal.tracer [])

/-- The `while i < n: i += 1` loop of `g` as executed during tracing,
with `fuel` bounding the number of iterations.  Each round first coerces
the condition `i < n` to a Python boolean; a traced condition makes the
whole trace fail before the body runs. -/
def whileLoopT : Nat → TVal → TVal → Except JaxError TVal
  | 0, i, _ => Except.ok i
  | fuel + 1, i, n => do
      let b ← pyBool (tLt i n)
      if b then whileLoopT fuel (tAdd i (TVal.concrete 1)) n else Except.ok i

/-- The notebook's `g` as executed during tracing:
`i = 0; while i < n: i += 1; return x + i`. -/
def gTraced (fuel : Nat) (x n : TVal) : Except JaxError TVal := do
  let i ← whileLoopT fuel (TVal.concrete 0) n
  pure (tAdd x i)

/-- Modelled from the spec: `jax.jit(g)` applied to two scalar arguments —
both arguments are replaced by shape-only scalar tracers. -/
def gJit (fuel : Nat) (_x _n : ℤ) : Except JaxError TVal :=
  gTraced fuel (TVal.tracer []) (TVal.tracer [])

/-! ## The jit compilation cache -/

/-- Modelled from the spec: the cache state of one `jax.jit`-transformed
function.  `compiled` lists the cache keys (input signatures, or values of
the arguments labelled static) for which an XLA artifact has been compiled
and cached; `compileCount` counts how many compilations have run. -/
structure JitCache (σ : Type) where
  compiled : List σ
  compileCount : Nat
deriving DecidableEq, Repr

/-- Modelled from the spec: applying `jax.jit` to a function compiles
nothing — the cache starts empty. -/
def jitInit {σ : Type} : JitCache σ := ⟨[], 0⟩

/-- Modelled from the spec: one call of the jitted function with cache key
`s`.  If an artifact for `s` is cached it is reused (`false` = no compile);
otherwise the function is compiled for `s` and the artifact cached
(`true` = a compilation ran). -/
def jitCall {σ : Type} [DecidableEq σ] (c : JitCache σ) (s : σ) :
    JitCache σ × Bool :=
  if s ∈ c.compiled then (c, false)
  else (⟨s :: c.compiled, c.compileCount + 1⟩, true)

/-- `k` successive calls of the jitted function, all with cache key `s`. -/
def jitCallN {σ : Type} [DecidableEq σ] (c : JitCache σ) (s : σ) :
    Nat → JitCache σ
  | 0 => c
  | k + 1 => (jitCall (jitCallN c s k) s).1

/-! ## Concrete execution of `log2` and the notebook's own state -/

/-- The mutable in-process state owned by the notebook's cells:
`global_list` (created by the first code cell) and the text printed so
far.  The notebook creates no files, sockets or other persisted state. -/
structure NotebookState where
  global_list : List ℝ
  printed : List ℝ

/-- The notebook's `log2` executed concretely on a real argument:
`global_list.append(x); ln_x = jnp.log(x); ln_2 = jnp.log(2.0);
return ln_x / ln_2`, with `jnp.log` read as the real logarithm. -/
noncomputable def log2 (st : NotebookState) (x : ℝ) : NotebookState × ℝ :=
  let st1 := { st with global_list := st.global_list ++ [x] }
  let ln_x := Real.log x
  let ln_2 := Real.log 2
  (st1, ln_x / ln_2)

/-! ## Helper lemmas about the loops -/

/-- The loop of `g` computes `max n i` (fuel-bounded induction). -/
theorem gLoop_eq_max_of_le (k : ℕ) :
    ∀ n i : ℤ, n - i ≤ k → gLoop n i = max n i := by
  induction k with
  | zero =>
    intro n i h
    rw [gLoop, if_neg (by omega : ¬ i < n)]
    exact (max_eq_right (by omega)).symm
  | succ k ih =>
    intro n i h
    rw [gLoop]
    by_cases hin : i < n
    · rw [if_pos hin, ih n (i + 1) (by omega)]
      rw [max_eq_left (by omega), max_eq_left (by omega)]
    · rw [if_neg hin]
      exact (max_eq_right (by omega)).symm

/-- The loop of `g` computes `max n i`. -/
theorem gLoop_eq_max (n i : ℤ) : gLoop n i = max n i :=
  gLoop_eq_max_of_le (n - i).toNat n i (by omega)

/-- The loop of `g` started at counter `i` runs `max (n - i) 0`
iterations (fuel-bounded induction). -/
theorem gLoopCount_spec_of_le (k : ℕ) :
    ∀ n i : ℤ, n - i ≤ k → (gLoopCount n i : ℤ) = max (n - i) 0 := by
  induction k with
  | zero =>
    intro n i h
    rw [gLoopCount, if_neg (by omega : ¬ i < n)]
    push_cast
    exact (max_eq_right (by omega)).symm
  | succ k ih =>
    intro n i h
    rw [gLoopCount]
    by_cases hin : i < n
    · rw [if_pos hin]
      push_cast
      rw [ih n (i + 1) (by omega)]
      rw [max_eq_left (by omega), max_eq_left (by omega)]
      ring
    · rw [if_neg hin]
      push_cast
      exact (max_eq_right (by omega)).symm

/-- The loop of `g` started at counter `i` runs `max (n - i) 0`
iterations. -/
theorem gLoopCount_spec (n i : ℤ) : (gLoopCount n i : ℤ) = max (n - i) 0 :=
  gLoopCount_spec_of_le (n - i).toNat n i (by omega)

/-- The loop of `g_inner_jitted` computes the same value as the loop of
`g` (fuel-bounded induction). -/
theorem gInnerLoop_eq_gLoop_of_le (k : ℕ) :
    ∀ n i : ℤ, n - i ≤ k → gInnerLoop n i = gLoop n i := by
  induction k with
  | zero =>
    intro n i h
    rw [gInnerLoop, gLoop, if_neg (by omega : ¬ i < n),
      if_neg (by omega : ¬ i < n)]
  | succ k ih =>
    intro n i h
    rw [gInnerLoop, gLoop]
    by_cases hin : i < n
    · rw [if_pos hin, if_pos hin]
      simp only [jitApply, loop_body]
      exact ih n (i + 1) (by omega)
    · rw [if_neg hin, if_neg hin]

/-- The loop of `g_inner_jitted` computes the same value as the loop of
`g`. -/
theorem gInnerLoop_eq_gLoop (n i : ℤ) : gInnerLoop n i = gLoop n i :=
  gInnerLoop_eq_gLoop_of_le (n - i).toNat n i (by omega)

/-- The loop of `g_inner_jitted_poorly` computes the same value as the
loop of `g` (fuel-bounded induction). -/
theorem gInnerLoopPoorly_eq_gLoop_of_le (k : ℕ) :
    ∀ n i : ℤ, n - i ≤ k → gInnerLoopPoorly n i = gLoop n i := by
  induction k with
  | zero =>
    intro n i h
    rw [gInnerLoopPoorly, gLoop, if_neg (by omega : ¬ i < n),
      if_neg (by omega : ¬ i < n)]
  | succ k ih =>
    intro n i h
    rw [gInnerLoopPoorly, gLoop]
    by_cases hin : i < n
    · rw [if_pos hin, if_pos hin]
      simp only [jitApply, unjitted_loop_body]
      exact ih n (i + 1) (by omega)
    · rw [if_neg hin, if_neg hin]

/-- The loop of `g_inner_jitted_poorly` computes the same value as the
loop of `g`. -/
theorem gInnerLoopPoorly_eq_gLoop (n i : ℤ) :
    gInnerLoopPoorly n i = gLoop n i :=
  gInnerLoopPoorly_eq_gLoop_of_le (n - i).toNat n i (by omega)

/-- Starting from the empty cache, `k ≥ 1` calls with the same key leave
the cache holding exactly that one key, compiled exactly once. -/
theorem jitCallN_init_eq {σ : Type} [DecidableEq σ] (s : σ) :
    ∀ k : Nat, 1 ≤ k → jitCallN (jitInit (σ := σ)) s k = ⟨[s], 1⟩ := by
  intro k hk
  induction k with
  | zero => omega
  | succ k ih =>
    rw [jitCallN]
    cases Nat.eq_zero_or_pos k with
    | inl h0 =>
      subst h0
      simp [jitCallN, jitCall, jitInit]
    | inr hpos =>
      rw [ih hpos]
      simp [jitCall]

/-! ## Claim theorems -/

/-- C1: for a function compiled with `static_argnums`, calling it twice
with the same value of the static argument compiles at most once — the
second call reuses the cached artifact and changes nothing — while a call
with a changed static value `t ≠ s` triggers a recompilation. -/
theorem static_argnums_caching (s t : ℤ) (h : t ≠ s) :
    ((jitCall (jitInit (σ := ℤ)) s).1).compileCount = 1 ∧
    jitCall (jitCall (jitInit (σ := ℤ)) s).1 s =
      ((jitCall (jitInit (σ := ℤ)) s).1, false) ∧
    (jitCall (jitCall (jitInit (σ := ℤ)) s).1 t).2 = true ∧
    ((jitCall (jitCall (jitInit (σ := ℤ)) s).1 t).1).compileCount = 2 := by
  have h1 : (jitCall (jitInit (σ := ℤ)) s).1 = ⟨[s], 1⟩ := by
    simp [jitCall, jitInit]
  rw [h1]
  refine ⟨rfl, ?_, ?_, ?_⟩
  · simp [jitCall]
  · simp [jitCall, h]
  · simp [jitCall, h]

/-- Witness for C1 at the notebook's static values: `g_jit_correct` with
static `n = 20`, then the changed static value `21`. -/
theorem static_argnums_caching_witness :
    (21 : ℤ) ≠ 20 ∧
    (((jitCall (jitInit (σ := ℤ)) 20).1).compileCount = 1 ∧
     jitCall (jitCall (jitInit (σ := ℤ)) 20).1 20 =
       ((jitCall (jitInit (σ := ℤ)) 20).1, false) ∧
     (jitCall (jitCall (jitInit (σ := ℤ)) 20).1 21).2 = true ∧
     ((jitCall (jitCall (jitInit (σ := ℤ)) 20).1 21).1).compileCount = 2) :=
  ⟨by decide, static_argnums_caching 20 21 (by decide)⟩

/-- C2: under plain `jax.jit`, the arguments are shape-only tracers, so
`f_jit(10)`, whose body branches on `x > 0`, and `g_jit(10, 20)`, whose
while loop is conditioned on `n`, both fail during tracing with
`ConcretizationTypeError` instead of returning a result (for `g` the
failure happens at the first condition check, for any positive iteration
bound). -/
theorem jit_value_conditioning_fails (fuel : Nat) :
    fJit 10 = Except.error JaxError.concretizationTypeError ∧
    gJit (fuel + 1) 10 20 = Except.error JaxError.concretizationTypeError :=
  ⟨rfl, rfl⟩

/-- C3: tracing `log2` runs it once on the placeholder `var 0`: the
trace-time side effect record shows exactly one append of the tracer to
`global_list` (and, for `log2_with_print`, exactly one print of the
tracer), while the recorded jaxpr is exactly the three framework
operations `log a; log 2.0; div`, with nothing corresponding to the side
effects. -/
theorem tracing_records_ops_not_side_effects :
    (makeJaxpr log2T).1 =
      [⟨1, JaxPrim.plog, [Atom.var 0]⟩,
       ⟨2, JaxPrim.plog, [Atom.lit 2]⟩,
       ⟨3, JaxPrim.pdiv, [Atom.var 1, Atom.var 2]⟩] ∧
    (makeJaxpr log2T).2.2.appended = [Atom.var 0] ∧
    (makeJaxpr log2T).2.2.printedVals = [] ∧
    (makeJaxpr log2WithPrintT).1 = (makeJaxpr log2T).1 ∧
    (makeJaxpr log2WithPrintT).2.2.printedVals = [Atom.var 0] ∧
    (makeJaxpr log2WithPrintT).2.2.appended = [] :=
  ⟨rfl, rfl, rfl, rfl, rfl, rfl⟩

/-- C4: `jax.jit` defers compilation — right after `jax.jit` is applied
the cache holds no compiled artifact; after the first call with a given
input signature exactly one compilation has run, and every later call with
that same signature reuses the cached code without recompiling. -/
theorem jit_deferred_compilation (s : List Nat) (k : Nat) (hk : 1 ≤ k) :
    (jitInit (σ := List Nat)).compileCount = 0 ∧
    (jitCallN (jitInit (σ := List Nat)) s k).compileCount = 1 ∧
    jitCall (jitCallN (jitInit (σ := List Nat)) s k) s =
      (jitCallN (jitInit (σ := List Nat)) s k, false) := by
  rw [jitCallN_init_eq s k hk]
  refine ⟨rfl, rfl, ?_⟩
  simp [jitCall]

/-- Witness for C4 at the notebook's `selu_jit` example: the signature of
`x = jnp.arange(1000000)` (shape `[1000000]`), three calls. -/
theorem jit_deferred_compilation_witness :
    1 ≤ 3 ∧
    ((jitInit (σ := List Nat)).compileCount = 0 ∧
     (jitCallN (jitInit (σ := List Nat)) [1000000] 3).compileCount = 1 ∧
     jitCall (jitCallN (jitInit (σ := List Nat)) [1000000] 3) [1000000] =
       (jitCallN (jitInit (σ := List Nat)) [1000000] 3, false)) :=
  ⟨by decide, jit_deferred_compilation [1000000] 3 (by decide)⟩

/-- C5 counterexample: the claim that no code cell creates or mutates
repository-owned state fails — `global_list` is a Python list created by
the notebook's first code cell, and running `log2` on `3.0` from the
initial notebook state mutates it. -/
theorem notebook_cell_mutates_own_state :
    (log2 ⟨[], []⟩ 3).1.global_list ≠
      (⟨[], []⟩ : NotebookState).global_list := by
  simp [log2]

/-- C5 amended: the repository defines no file formats, wire protocols,
CLI surface or persisted state; the only state a code cell creates and
mutates is the transient in-process `global_list`, to which `log2`
appends its argument while leaving every other notebook state component
unchanged. -/
theorem notebook_state_confined (st : NotebookState) (x : ℝ) :
    (log2 st x).1.global_list = st.global_list ++ [x] ∧
    (log2 st x).1.printed = st.printed :=
  ⟨rfl, rfl⟩

/-- C7: Python control flow on an argument's shape is resolved at trace
time: for every input shape of rank other than 2, the jaxpr of
`log2_if_rank_2` is the identity — no equations at all (in particular no
`log` and no `div`), and the output is the argument itself. -/
theorem shape_conditioning_resolved_at_trace (shape : List Nat)
    (h : shape.length ≠ 2) :
    (makeJaxpr (log2IfRank2T shape)).1 = [] ∧
    (makeJaxpr (log2IfRank2T shape)).2.1 = Atom.var 0 := by
  simp [makeJaxpr, log2IfRank2T, h, initTrSt]

/-- Witness for C7 at the notebook's input `jax.numpy.array([1, 2, 3])`,
whose shape `[3]` has rank 1. -/
theorem shape_conditioning_resolved_at_trace_witness :
    ([3] : List Nat).length ≠ 2 ∧
    ((makeJaxpr (log2IfRank2T [3])).1 = [] ∧
     (makeJaxpr (log2IfRank2T [3])).2.1 = Atom.var 0) :=
  ⟨by decide, shape_conditioning_resolved_at_trace [3] (by decide)⟩

/-- C8: `g (x, n)` terminates for all integers (its loop is a total
function by well-founded recursion); the while loop runs exactly
`max n 0` iterations, and `g` returns `x + n` when `0 ≤ n` and `x` when
`n < 0`. -/
theorem g_terminates_and_returns (x n : ℤ) :
    (gLoopCount n 0 : ℤ) = max n 0 ∧
    (0 ≤ n → g x n = x + n) ∧
    (n < 0 → g x n = x) := by
  refine ⟨?_, ?_, ?_⟩
  · rw [gLoopCount_spec]
    norm_num
  · intro h
    unfold g
    rw [gLoop_eq_max, max_eq_left h]
  · intro h
    unfold g
    rw [gLoop_eq_max, max_eq_right (by omega)]
    ring

/-- Witness for C8 at the notebook's call `g_jit_correct(10, 20)` and at
a negative loop bound. -/
theorem g_terminates_and_returns_witness :
    ((0 : ℤ) ≤ 20 ∧ g 10 20 = 30) ∧ ((-3 : ℤ) < 0 ∧ g 7 (-3) = 7) := by
  constructor
  · refine ⟨by norm_num, ?_⟩
    rw [(g_terminates_and_returns 10 20).2.1 (by norm_num)]
    norm_num
  · refine ⟨by norm_num, ?_⟩
    rw [(g_terminates_and_returns 7 (-3)).2.2 (by norm_num)]

/-- C9: `g_inner_jitted` and `g_inner_jitted_poorly` are extensionally
equal to `g` — all three return the same value on every pair of integers
(in particular `g_inner_jitted 10 20 = 30`) — since `loop_body` (jitted)
and `unjitted_loop_body` both map `i` to `i + 1`. -/
theorem inner_jitted_extensionally_equal_g (x n : ℤ) :
    jitApply loop_body x = x + 1 ∧
    unjitted_loop_body x = x + 1 ∧
    g_inner_jitted x n = g x n ∧
    g_inner_jitted_poorly x n = g x n ∧
    g_inner_jitted 10 20 = 30 := by
  refine ⟨rfl, rfl, ?_, ?_, ?_⟩
  · unfold g_inner_jitted g
    rw [gInnerLoop_eq_gLoop]
  · unfold g_inner_jitted_poorly g
    rw [gInnerLoopPoorly_eq_gLoop]
  · unfold g_inner_jitted
    rw [gInnerLoop_eq_gLoop, gLoop_eq_max]
    norm_num

/-- C10: each call of `log2` appends exactly one element — its argument —
to `global_list`, changes no other component of the notebook state, and
returns `ln x / ln 2`, a value independent of the state, so calls with
the same argument agree no matter how many calls preceded them. -/
theorem log2_effect_and_determinism (st st' : NotebookState) (x : ℝ) :
    (log2 st x).1.global_list = st.global_list ++ [x] ∧
    (log2 st x).1.printed = st.printed ∧
    (log2 st x).2 = Real.log x / Real.log 2 ∧
    (log2 st x).2 = (log2 st' x).2 :=
  ⟨rfl, rfl, rfl, rfl⟩

end Jitting
